import Mathlib

/-!
Verification development for `airtest/core/android/py_adb.py` of the
nic562/Airtest repository: a shallow embedding of the ADB facade's
port-forward manager, command-execution layer, telemetry parsers and
session/registry cleanup, with theorems settling the specification's
claims about them.

Conventions of the embedding:
* Python integers are `Nat` (all the quantities involved are non-negative);
  bitwise operators translate to `Nat.shiftLeft`/`Nat.land`/`Nat.lor`.
* Python exceptions are `Except`: a raised exception is `Except.error`.
* Side effects of the external transport (pure-python-adb) are oracles
  passed in as explicit arguments; printing a console warning is recorded
  as a `Bool` component of the result.
* Python strings are `String`/`List Char`; the specific regular
  expressions of the source are implemented as executable scanners with
  `re` module semantics (leftmost match start, greedy quantifiers).
-/

namespace PyAdb

/-- Model of Python's `random.randint(a, b)`: a uniformly drawn integer `N`
with `a <= N <= b` (both endpoints included, per the `random` module's
documentation).  The randomness is made explicit as a seed argument `r`;
as `r` ranges over `Nat`, the results range over exactly `[a, b]`. -/
def randint (a b r : Nat) : Nat := a + r % (b - a + 1)

/-- `ADB.get_available_forward_local`: `return random.randint(11111, 20000)`. -/
def get_available_forward_local (r : Nat) : Nat := randint 11111 20000 r

/-- Modelled from the spec: the `retries` decorator (`airtest.utils.retry`,
a module of this repository that is not under `src/`): re-invokes the
wrapped callable on an exception, up to the given total number of
attempts; if all attempts fail, the last error propagates to the caller.
`f` is the wrapped body, given the index of the current attempt (the
body re-reads its random draws each attempt, hence the index);
`remaining` counts the attempts still allowed after the current one. -/
def retriesFrom (f : Nat → Except ε α) : Nat → Nat → Except ε α
  | i, 0 => f i
  | i, remaining + 1 =>
    match f i with
    | Except.ok a => Except.ok a
    | Except.error _ => retriesFrom f (i + 1) remaining

/-- `@retries(3)`: at most 3 attempts total (indices 0, 1, 2). -/
def retries (maxTries : Nat) (f : Nat → Except ε α) : Except ε α :=
  retriesFrom f 0 (maxTries - 1)

/-- The `device_port` argument of `ADB.setup_forward`: either a literal
descriptor string or a single-argument function of the chosen local port
(the source tests `callable(device_port)`). -/
inductive PortSpec where
  | literal (s : String)
  | fn (f : Nat → String)

/-- `if callable(device_port): device_port = device_port(local_port)`. -/
def evalPortSpec (spec : PortSpec) (localPort : Nat) : String :=
  match spec with
  | PortSpec.literal s => s
  | PortSpec.fn f => f localPort

/-- Environment for `setup_forward`: the random seed consumed by attempt
`i`, and the outcome the transport gives to the `forward(local, remote,
no_rebind)` registration performed by attempt `i` (arguments as the code
passes them). -/
structure ForwardEnv (ε : Type) where
  seeds : Nat → Nat
  forwardOutcome : Nat → String → String → Bool → Except ε Unit

/-- One attempt of the body of `ADB.setup_forward`:
`local_port = self.get_available_forward_local()`;
`if callable(device_port): device_port = device_port(local_port)`;
`self.forward("tcp:%s" % local_port, device_port, no_rebind=no_rebind)`;
`return local_port, device_port`. -/
def setup_forward_attempt (env : ForwardEnv ε) (device_port : PortSpec)
    (no_rebind : Bool) (i : Nat) : Except ε (Nat × String) :=
  let local_port := get_available_forward_local (env.seeds i)
  let dp := evalPortSpec device_port local_port
  match env.forwardOutcome i ("tcp:" ++ toString local_port) dp no_rebind with
  | Except.ok _ => Except.ok (local_port, dp)
  | Except.error e => Except.error e

/-- `ADB.setup_forward`, decorated with `@retries(3)`. -/
def setup_forward (env : ForwardEnv ε) (device_port : PortSpec)
    (no_rebind : Bool) : Except ε (Nat × String) :=
  retries 3 (setup_forward_attempt env device_port no_rebind)

/-! ### Aggregate device report (`ADB.get_device_info`) -/

/-- The outcomes of the per-field extractors feeding `get_device_info`.
Each callable field is an independent Python call that may raise
(`Except Unit`, the caught class being bare `Exception`); `serial` is the
non-callable `self.serial` attribute; `sdkversion` is the result of
evaluating the `self.sdk_version` property. -/
structure DevInfoEnv (V : Type) where
  serial : Option String
  memory : Except Unit V
  storage : Except Unit V
  display : Except Unit V
  cpuinfo : Except Unit V
  cpufreq : Except Unit V
  cpuabi : Except Unit V
  gpu : Except Unit V
  model : Except Unit V
  manufacturer : Except Unit V
  sdkversion : Except Unit Nat

/-- The aggregate report: values, or `none` (Python `None`) for a field
whose extractor raised inside the `try`/`except` of the loop. -/
structure DeviceInfoReport (V : Type) where
  platform : String
  serialno : Option String
  memory : Option V
  storage : Option V
  display : Option V
  cpuinfo : Option V
  cpufreq : Option V
  cpuabi : Option V
  gpu : Option V
  model : Option V
  manufacturer : Option V
  sdkversion : Nat
deriving DecidableEq

/-- The loop body of `get_device_info` for a callable handler:
`try: value = v() except Exception: value = None; ret[k] = value`. -/
def tryField (x : Except Unit V) : Option V :=
  match x with
  | Except.ok v => some v
  | Except.error _ => none

/-- `ADB.get_device_info`.  The `handlers` dict literal is evaluated
first; evaluating the entry `"sdkversion": self.sdk_version` triggers the
`sdk_version` property getter *outside* any `try`/`except`, so an
exception there propagates and no report is returned at all.  The loop
then stores non-callable values (`platform`, `serialno`, and the already
computed `sdkversion` int) directly, and wraps only the callable
extractors in `try`/`except Exception`. -/
def get_device_info (env : DevInfoEnv V) : Except Unit (DeviceInfoReport V) :=
  match env.sdkversion with
  | Except.error e => Except.error e
  | Except.ok sdk =>
    Except.ok {
      platform := "Android"
      serialno := env.serial
      memory := tryField env.memory
      storage := tryField env.storage
      display := tryField env.display
      cpuinfo := tryField env.cpuinfo
      cpufreq := tryField env.cpufreq
      cpuabi := tryField env.cpuabi
      gpu := tryField env.gpu
      model := tryField env.model
      manufacturer := tryField env.manufacturer
      sdkversion := sdk }

/-! ### Command execution (`ADB.shell` / `ADB.raw_shell`, buffered path) -/

/-- A buffered shell result: the transport's raw bytes, or a Python `str`. -/
inductive ShellRS where
  | bytes (b : List Nat)
  | text (s : String)
deriving DecidableEq

/-- Hex digit for Python's `\xNN` byte escapes. -/
def hexDigit (n : Nat) : Char :=
  if n < 10 then Char.ofNat (48 + n) else Char.ofNat (87 + n)

/-- One byte of Python's `repr` of a `bytes` object, given the chosen
quote character. -/
def pyByteEscape (quote : Nat) (b : Nat) : String :=
  if b = 92 then (Char.ofNat 92).toString ++ (Char.ofNat 92).toString
  else if b = quote then (Char.ofNat 92).toString ++ (Char.ofNat quote).toString
  else if b = 9 then (Char.ofNat 92).toString ++ "t"
  else if b = 10 then (Char.ofNat 92).toString ++ "n"
  else if b = 13 then (Char.ofNat 92).toString ++ "r"
  else if 32 ≤ b && b ≤ 126 then (Char.ofNat b).toString
  else (Char.ofNat 92).toString ++ "x" ++ (hexDigit (b / 16)).toString
       ++ (hexDigit (b % 16)).toString

/-- Python's `str()` of a `bytes` object, i.e. its `repr`:
`b'...'`, single-quoted unless the bytes contain a single quote (39) and
no double quote (34). -/
def pyBytesRepr (bs : List Nat) : String :=
  let quote : Nat := if bs.contains 39 && !(bs.contains 34) then 34 else 39
  "b" ++ (Char.ofNat quote).toString ++ String.join (bs.map (pyByteEscape quote))
      ++ (Char.ofNat quote).toString

/-- Python `str()` on a buffered shell result. -/
def pyStr : ShellRS → String
  | ShellRS.bytes b => pyBytesRepr b
  | ShellRS.text s => s

/-- The buffered (`handler=None`) branch of `ADB.shell`: the transport is
asked to decode with `decode=ensure_unicode and 'utf8' or None`, so the
result is UTF-8 text when `ensure_unicode` is true and the raw bytes
otherwise.  `decodeUtf8` is the external transport's UTF-8 decoder. -/
def shell_buffered (decodeUtf8 : List Nat → String) (transportBytes : List Nat)
    (ensure_unicode : Bool) : ShellRS :=
  if ensure_unicode then ShellRS.text (decodeUtf8 transportBytes)
  else ShellRS.bytes transportBytes

/-- `ADB.raw_shell`:
`rs = self.shell(cmd, timeout_ms, ensure_unicode=False)` — the flag
passed down to `shell` is the constant `False`, not the caller's flag —
then `if ensure_unicode: return rs` and `return str(rs)`. -/
def raw_shell (decodeUtf8 : List Nat → String) (transportBytes : List Nat)
    (ensure_unicode : Bool) : ShellRS :=
  let rs := shell_buffered decodeUtf8 transportBytes false
  if ensure_unicode then rs
  else ShellRS.text (pyStr rs)

/-! ### Session connection (`ADB.connect`, `ADB.wait_for_device`) -/

/-- The exception classes this module raises.  `airtest.core.error`
defines `DeviceConnectionError`, `AdbError`, `AdbShellError` and
`AirtestError`; `RuntimeError` is Python's builtin generic error.  The
spec's ConnectivityError taxonomy is `DeviceConnectionError` (the class
`wait_for_device` raises and the no-device test expects). -/
inductive PyErr where
  | runtimeError (msg : String)
  | deviceConnectionError (msg : String)
  | adbError (msg : String)
  | adbShellError (msg : String)
  | airtestError (msg : String)
deriving DecidableEq

/-- Membership in the spec's ConnectivityError category. -/
def isConnectivityError : PyErr → Bool
  | PyErr.deviceConnectionError _ => true
  | _ => false

/-- Python f-string rendering of an optional serial (`None` prints as
`"None"`). -/
def fstrOpt : Option String → String
  | some x => x
  | none => "None"

/-- `ADB.connect(serial=None)`:
`s = serial or self.serial`; when `s` is set, `self._dev =
self.adb_client.device(s)`; `if not self._dev: raise RuntimeError(f'No
device found for [{serial}]')` (the message interpolates the `serial`
argument, not `s`); on success `self.serial = s`.  Returns the new
`(self._dev, self.serial)` pair.  (The model elides the fact that Python
also treats an empty serial string as falsy.) -/
def connect (selfSerial : Option String) (selfDev : Option δ)
    (lookup : String → Option δ) (serial : Option String) :
    Except PyErr (Option δ × Option String) :=
  let s := match serial with
    | some x => some x
    | none => selfSerial
  match s with
  | none => Except.ok (selfDev, selfSerial)
  | some sv =>
    match lookup sv with
    | none => Except.error (PyErr.runtimeError
        ("No device found for [" ++ fstrOpt serial ++ "]"))
    | some d => Except.ok (some d, some sv)

/-- `ADB.wait_for_device(timeout=5)`: poll `self.adb_client.devices()`
once per second; if the list stays empty until `timeout` reaches 0, raise
`DeviceConnectionError('device not ready')`.  `polls i` is the device
list the transport returns at the i-th poll. -/
def wait_for_device_from (polls : Nat → List String) : Nat → Nat → Except PyErr Unit
  | _, 0 => Except.error (PyErr.deviceConnectionError "device not ready")
  | i, t + 1 =>
    if polls i = [] then wait_for_device_from polls (i + 1) t else Except.ok ()

/-- `ADB.wait_for_device` starting from the first poll. -/
def wait_for_device (polls : Nat → List String) (timeout : Nat) : Except PyErr Unit :=
  wait_for_device_from polls 0 timeout

/-! ### Text entry (`ADB.text`) -/

/-- Python `str.isalpha`: true iff the string is non-empty and every
character is alphabetic (modelled with `Char.isAlpha`, exact for the
ASCII range). -/
def str_isalpha (s : String) : Bool := !s.isEmpty && s.toList.all Char.isAlpha

/-- `ADB.text(content)`: the sequence of `adb shell` commands issued, as
token lists.  Alphabetic-only content goes through `input text` as one
command; otherwise one `input keyevent KEYCODE_<upper-cased char>`
command is issued per character. -/
def text (content : String) : List (List String) :=
  if str_isalpha content then [["input", "text", content]]
  else content.toList.map
    (fun i => ["input", "keyevent", "KEYCODE_" ++ (Char.toUpper i).toString])

/-! ### Process-exit cleanup (`cleanup_adb_forward` and the registry) -/

/-- Classification of an exception raised by `adb.remove_forward()`:
Python's `RuntimeError` (what `get_device` and the pure-python-adb
protocol layer raise) versus any other exception class (e.g. the socket
layer's `OSError`s when the adb server is gone). -/
inductive RemoveExc where
  | runtimeError
  | otherExc
deriving DecidableEq

/-- `ADB.__init__` ends with `self.__class__._instances.append(self)`:
creating sessions in order `ss` builds the registry by successive
appends. -/
def registerAll (ss : List σ) : List σ := ss.foldl (fun acc s => acc ++ [s]) []

/-- `cleanup_adb_forward()` (registered with `reg_cleanup` to run at
process exit): `for adb in ADB._instances: try: adb.remove_forward()
except RuntimeError: continue`.  Only `RuntimeError` is caught; an
exception of any other class propagates out of the loop, ending the pass.
Returns the sessions whose removal was invoked, in invocation order, and
the uncaught exception if any. -/
def cleanup_adb_forward (remove : σ → Except RemoveExc Unit) :
    List σ → List σ × Option RemoveExc
  | [] => ([], none)
  | s :: rest =>
    match remove s with
    | Except.ok _ =>
      let r := cleanup_adb_forward remove rest
      (s :: r.fst, r.snd)
    | Except.error RemoveExc.runtimeError =>
      let r := cleanup_adb_forward remove rest
      (s :: r.fst, r.snd)
    | Except.error RemoveExc.otherExc => ([s], some RemoveExc.otherExc)

/-! ### The `display_info` property and its lock -/

/-- The mutable state the `display_info` property touches:
`self._display_info_lock` (held or not) and `self._display_info` (an
empty dict until populated; `none` here). -/
structure DIState (ρ : Type) where
  lockHeld : Bool
  cache : Option ρ

/-- Outcome of one access to the `display_info` property. -/
inductive DIOutcome (ρ ε : Type) where
  | ok (v : ρ)
  | raised (e : ε)
  | blocked

/-- The `display_info` property:
`self._display_info_lock.acquire()`;
`if not self._display_info: self._display_info = self.get_display_info()`;
`self._display_info_lock.release()`; `return self._display_info`.
There is no `try`/`finally`: if `get_display_info` raises, `release()` is
never executed and the lock stays held.  In this model an `acquire()` on
a lock that is already held is `blocked` — nothing can release it. -/
def display_info_access (compute : Except ε ρ) (st : DIState ρ) :
    DIOutcome ρ ε × DIState ρ :=
  if st.lockHeld then (DIOutcome.blocked, st)
  else
    match st.cache with
    | some v => (DIOutcome.ok v, { lockHeld := false, cache := some v })
    | none =>
      match compute with
      | Except.error e => (DIOutcome.raised e, { lockHeld := true, cache := none })
      | Except.ok v => (DIOutcome.ok v, { lockHeld := false, cache := some v })

/-! ### Active-resolution override (`ADB.update_cur_display`) -/

/-- Maximal leading digit run of a character list (a greedy `\d+`). -/
def digitRun : List Char → List Char × List Char
  | [] => ([], [])
  | c :: rest =>
    if c.isDigit then
      let r := digitRun rest
      (c :: r.fst, r.snd)
    else ([], c :: rest)

/-- Numeric value of a digit run (Python `int` on the matched group). -/
def digitsToNat (ds : List Char) : Nat :=
  ds.foldl (fun a c => a * 10 + (c.toNat - 48)) 0

/-- Match `cur=(\d+)x(\d+)` with its start exactly at the head of `l`.
Both `\d+` are greedy; since the character after a maximal digit run is
not a digit, no backtracking into the runs can succeed, so taking the
maximal runs is exact `re` semantics. -/
def matchCurAt (l : List Char) : Option (Nat × Nat) :=
  match l with
  | 'c' :: 'u' :: 'r' :: '=' :: rest =>
    let r1 := digitRun rest
    if r1.fst = [] then none
    else
      match r1.snd with
      | 'x' :: rest2 =>
        let r2 := digitRun rest2
        if r2.fst = [] then none
        else some (digitsToNat r1.fst, digitsToNat r2.fst)
      | _ => none
  | _ => none

/-- The first element of `re.findall(r'cur=(\d+)x(\d+)', s)` (`findall`
scans left to right, so its first element is the leftmost match). -/
def findCur : List Char → Option (Nat × Nat)
  | [] => none
  | c :: rest =>
    match matchCurAt (c :: rest) with
    | some p => some p
    | none => findCur rest

/-- The display-info record as far as `update_cur_display` touches it:
`width`, `height` and the `physical_width`/`physical_height` keys it may
add (absent beforehand).  All other keys of the Python dict (density,
orientation, ...) are left untouched by the function. -/
structure DisplayInfo where
  width : Nat
  height : Nat
  physical_width : Option Nat
  physical_height : Option Nat
deriving DecidableEq

/-- `ADB.update_cur_display(display_info)`: run
`re.findall(r'cur=(\d+)x(\d+)', ...)` over the `dumpsys window displays`
output; if any match exists, set `width` to the smaller and `height` to
the larger of the two numbers of the first match, after saving the prior
`width`/`height` into `physical_width`/`physical_height`; otherwise
return the record unchanged. -/
def update_cur_display (display_info : DisplayInfo) (dump : String) : DisplayInfo :=
  match findCur dump.toList with
  | none => display_info
  | some (a, b) =>
    { width := min a b
      height := max a b
      physical_width := some display_info.width
      physical_height := some display_info.height }

/-! ### Gateway address (`ADB.get_gateway_address`, `_get_subnet_mask_len`) -/

/-- `ip2int = lambda ip: reduce(lambda a, b: (a << 8) + b, map(int,
ip.split('.')), 0)`, applied to the already split-and-parsed octets. -/
def ip2int (octets : List Nat) : Nat :=
  octets.foldl (fun a b => (a <<< 8) + b) 0

/-- `int2ip = lambda n: '.'.join([str(n >> (i << 3) & 0xFF) for i in
range(0, 4)[::-1]])` (in Python, `>>` binds tighter than `&`). -/
def int2ip (n : Nat) : String :=
  String.intercalate "." (([3, 2, 1, 0] : List Nat).map
    (fun i => toString ((n >>> (i <<< 3)) &&& 0xFF)))

/-- Consume `(\d+\.)` exactly `k` times from the head of `l`. -/
def matchDotGroups : List Char → Nat → Option (List Char)
  | l, 0 => some l
  | l, k + 1 =>
    let r := digitRun l
    if r.fst = [] then none
    else
      match r.snd with
      | '.' :: rest2 => matchDotGroups rest2 k
      | _ => none

/-- Match the tail `\x20(\d+\.){3}\d+/(\d+)\x20` of the netcfg pattern
with its start exactly at the head of `l`, returning capture group 2 (the
mask length).  As in `matchCurAt`, the greedy digit runs admit no useful
backtracking, so maximal runs are exact. -/
def matchMaskTail (l : List Char) : Option Nat :=
  match l with
  | ' ' :: rest =>
    match matchDotGroups rest 3 with
    | none => none
    | some rest1 =>
      let r1 := digitRun rest1
      if r1.fst = [] then none
      else
        match r1.snd with
        | '/' :: rest3 =>
          let r2 := digitRun rest3
          if r2.fst = [] then none
          else
            match r2.snd with
            | ' ' :: _ => some (digitsToNat r2.fst)
            | _ => none
        | _ => none
  | _ => none

/-- The greedy `.*` of `wlan0.*\x20(\d+\.){3}\d+/(\d+)\x20` consumes as
much of the line as possible and backtracks, so the tail matches at the
rightmost possible position: prefer a match further right. -/
def lastMaskMatch : List Char → Option Nat
  | [] => none
  | c :: rest =>
    match lastMaskMatch rest with
    | some g => some g
    | none => matchMaskTail (c :: rest)

/-- `re.search(r'wlan0.* (\d+\.){3}\d+/(\d+) ', res)`: the leftmost
occurrence of `wlan0` whose line (the default `.` does not cross a
newline, and the tail can match no newline character) admits a completion
wins; within that line the greedy `.*` picks the rightmost completion.
A failed start position advances by one character, where only a further
`wlan0` can start a match. -/
def findWlan0 : List Char → Option Nat
  | 'w' :: 'l' :: 'a' :: 'n' :: '0' :: rest =>
    (match lastMaskMatch (rest.takeWhile (fun ch => ch ≠ '\n')) with
     | some g => some g
     | none => findWlan0 ('l' :: 'a' :: 'n' :: '0' :: rest))
  | _ :: rest => findWlan0 rest
  | [] => none

/-- `ADB._get_subnet_mask_len`: `netcfgRes` is the output of
`self.shell('netcfg')`, or `none` when that raised `AdbShellError`
(caught by `except AdbShellError: pass`).  Returns the mask length and
whether the console warning `[iputils WARNING] fail to get subnet mask
len. use 17 as default.` was printed. -/
def get_subnet_mask_len (netcfgRes : Option String) : Nat × Bool :=
  match netcfgRes with
  | none => (17, true)
  | some s =>
    match findWlan0 s.toList with
    | some g => (g, false)
    | none => (17, true)

/-- `ADB.get_gateway_address`, with the stage results explicit:
`gatewayProp` is the `IP_PATTERN` match on the output of `getprop
dhcp.wlan0.gateway` (that compiled pattern lives in
`airtest.core.android.constant`, which is not under `src/`; modelled from
the spec as "a dotted-quad match, or none"); `ipOctets` are the four
parsed components of the dotted-quad returned by `get_ip_address()`
(`none` when no IP is obtainable); `netcfgRes` feeds
`_get_subnet_mask_len`.  The `Bool` records whether the mask-length
console warning was printed.  (For a detected mask length above 32,
Python's `<<` of a negative shift would raise; `Nat` subtraction
truncates instead, so theorems about the computed value assume
`mask_len ≤ 32`.) -/
def get_gateway_address (gatewayProp : Option String)
    (ipOctets : Option (List Nat)) (netcfgRes : Option String) :
    Option String × Bool :=
  match gatewayProp with
  | some g => (some g, false)
  | none =>
    match ipOctets with
    | none => (none, false)
    | some oct =>
      let mlw := get_subnet_mask_len netcfgRes
      let gateway := (ip2int oct &&& (((1 <<< mlw.fst) - 1) <<< (32 - mlw.fst))) + 1
      (some (int2ip gateway), mlw.snd)

/-! ## Helper lemmas -/

theorem retriesFrom_zero (f : Nat → Except ε α) (i : Nat) :
    retriesFrom f i 0 = f i := rfl

theorem retriesFrom_succ (f : Nat → Except ε α) (i m : Nat) :
    retriesFrom f i (m + 1) =
      match f i with
      | Except.ok a => Except.ok a
      | Except.error _ => retriesFrom f (i + 1) m := rfl

/-- A successful `retriesFrom` run owes its value to one of the attempts. -/
theorem retriesFrom_ok (f : Nat → Except ε α) (i n : Nat) (a : α)
    (h : retriesFrom f i n = Except.ok a) : ∃ j, f j = Except.ok a := by
  induction n generalizing i with
  | zero => exact ⟨i, h⟩
  | succ m ih =>
    rw [retriesFrom_succ] at h
    cases hfi : f i with
    | ok b => rw [hfi] at h; exact ⟨i, by rw [hfi]; exact h⟩
    | error e => rw [hfi] at h; exact ih (i + 1) h

/-- Anatomy of a successful `setup_forward` attempt: the local port is the
fresh random draw of that attempt, the device port is the spec evaluated
at that port, and the registration was performed with the given
`no_rebind` flag. -/
theorem setup_forward_attempt_ok (env : ForwardEnv ε) (dp : PortSpec)
    (nr : Bool) (i lp : Nat) (s : String)
    (h : setup_forward_attempt env dp nr i = Except.ok (lp, s)) :
    lp = get_available_forward_local (env.seeds i) ∧ s = evalPortSpec dp lp ∧
    env.forwardOutcome i ("tcp:" ++ toString lp) s nr = Except.ok () := by
  simp only [setup_forward_attempt] at h
  cases ho : env.forwardOutcome i
      ("tcp:" ++ toString (get_available_forward_local (env.seeds i)))
      (evalPortSpec dp (get_available_forward_local (env.seeds i))) nr with
  | ok u =>
    rw [ho] at h
    simp only [Except.ok.injEq, Prod.mk.injEq] at h
    obtain ⟨h1, h2⟩ := h
    subst h1; subst h2
    refine ⟨rfl, rfl, ?_⟩
    rw [ho]
  | error e => rw [ho] at h; exact absurd h (by simp)

/-- Range of the local-port draw: `random.randint(11111, 20000)` yields
exactly the integers `11111 ≤ p ≤ 20000`. -/
theorem get_available_forward_local_range (r : Nat) :
    11111 ≤ get_available_forward_local r ∧ get_available_forward_local r ≤ 20000 := by
  have hm : r % 8890 < 8890 := Nat.mod_lt r (by norm_num)
  simp only [get_available_forward_local, randint]
  norm_num
  omega

/-- An even number with its low bit set by OR equals the number plus one. -/
theorem lor_one_of_even (n : Nat) (h : n % 2 = 0) : n ||| 1 = n + 1 := by
  apply Nat.eq_of_testBit_eq
  intro i
  cases i with
  | zero =>
    simp only [Nat.testBit_lor, Nat.testBit_zero]
    simp [h, Nat.add_mod]
  | succ j =>
    simp only [Nat.testBit_lor]
    simp only [Nat.testBit_succ]
    have e1 : (1 : Nat) / 2 = 0 := by norm_num
    have e2 : (n + 1) / 2 = n / 2 := by omega
    rw [e1, e2]
    simp

/-- AND with an even mask yields an even number. -/
theorem land_mod_two_eq_zero (x m : Nat) (h : m % 2 = 0) : (x &&& m) % 2 = 0 := by
  have ht := Nat.testBit_land x m 0
  simp only [Nat.testBit_zero] at ht
  have hm : decide (m % 2 = 1) = false := by simp [h]
  rw [hm, Bool.and_false] at ht
  have hne : ¬ (x &&& m) % 2 = 1 := by
    intro hc
    rw [hc] at ht
    simp at ht
  omega

/-- The subnet mask `((1 << ml) - 1) << (32 - ml)` is even whenever
`ml ≤ 31` (its low bit is one of the cleared host bits). -/
theorem mask_mod_two (ml : Nat) (h : ml ≤ 31) :
    (((1 <<< ml) - 1) <<< (32 - ml)) % 2 = 0 := by
  rw [Nat.shiftLeft_eq]
  have h32 : 32 - ml = (31 - ml) + 1 := by omega
  rw [h32, pow_succ, ← Nat.mul_assoc]
  exact Nat.mul_mod_left _ 2

/-- Creating sessions in order appends each to the registry, so the
registry lists them in creation order. -/
theorem registerAll_eq (ss : List σ) : registerAll ss = ss := by
  have haux : ∀ (t acc : List σ),
      t.foldl (fun acc s => acc ++ [s]) acc = acc ++ t := by
    intro t
    induction t with
    | nil => intro acc; simp
    | cons a t ih => intro acc; simp [ih]
  simpa using haux ss []

/-- A cleanup pass over sessions none of whose removals raises an
exception outside `RuntimeError` reaches every session and finishes. -/
theorem cleanup_all_invoked (remove : σ → Except RemoveExc Unit) :
    ∀ ss : List σ, (∀ s ∈ ss, remove s ≠ Except.error RemoveExc.otherExc) →
      cleanup_adb_forward remove ss = (ss, none) := by
  intro ss
  induction ss with
  | nil => intro _; rfl
  | cons a t ih =>
    intro h
    have ha := h a (by simp)
    have ht := ih (fun s hs => h s (by simp [hs]))
    cases hra : remove a with
    | ok u => simp [cleanup_adb_forward, hra, ht]
    | error e =>
      cases e with
      | runtimeError => simp [cleanup_adb_forward, hra, ht]
      | otherExc => exact absurd hra ha

/-! ## C1 -/

/-- C1 is false as stated: the claim says the Port-Forward Manager never
returns the local port 20000, but `random.randint(11111, 20000)` includes
both endpoints; the draw with seed 8889 returns exactly 20000. -/
theorem C1_counterexample :
    get_available_forward_local 8889 = 20000 ∧
    ¬ get_available_forward_local 8889 < 20000 := by decide

/-- C1 (amended): every local port returned by
`get_available_forward_local` — and hence the `localPort` component of
every successful `setup_forward` result — satisfies
`11111 ≤ localPort ≤ 20000`; the range is inclusive of 20000. -/
theorem C1_port_range (r : Nat) (env : ForwardEnv ε) (device_port : PortSpec)
    (no_rebind : Bool) :
    (11111 ≤ get_available_forward_local r ∧ get_available_forward_local r ≤ 20000) ∧
    (∀ lp s, setup_forward env device_port no_rebind = Except.ok (lp, s) →
      11111 ≤ lp ∧ lp ≤ 20000) := by
  refine ⟨get_available_forward_local_range r, ?_⟩
  intro lp s h
  obtain ⟨j, hj⟩ := retriesFrom_ok _ 0 2 _ h
  obtain ⟨h1, -, -⟩ := setup_forward_attempt_ok env device_port no_rebind j lp s hj
  rw [h1]
  exact get_available_forward_local_range (env.seeds j)

/-- C1 witness: the draw with seed 0 lies in range, and a concrete
successful `setup_forward` run returning local port 11111 satisfies the
bounds. -/
theorem C1_port_range_witness :
    (11111 ≤ get_available_forward_local 0 ∧ get_available_forward_local 0 ≤ 20000) ∧
    (11111 ≤ 11111 ∧ 11111 ≤ 20000) :=
  ⟨(C1_port_range 0 (⟨fun i => i, fun _ _ _ _ => Except.ok ()⟩ : ForwardEnv Unit)
      (PortSpec.literal "tcp:5001") true).1,
   (C1_port_range 0 (⟨fun i => i, fun _ _ _ _ => Except.ok ()⟩ : ForwardEnv Unit)
      (PortSpec.literal "tcp:5001") true).2 11111 "tcp:5001" rfl⟩

/-! ## C3 -/

/-- C3: each attempt of `setup_forward` draws a fresh local port from the
random source, evaluates a callable `device_port` spec at that drawn
port, and registers the forward passing `no_rebind` through; the result
depends only on the first 3 attempts; if all 3 attempts fail the last
error propagates; the first successful attempt (first, second or third)
yields the result. -/
theorem C3_setup_forward_retry (env : ForwardEnv ε) (dp : PortSpec) (nr : Bool) :
    (∀ i lp s, setup_forward_attempt env dp nr i = Except.ok (lp, s) →
      lp = get_available_forward_local (env.seeds i) ∧ s = evalPortSpec dp lp ∧
      env.forwardOutcome i ("tcp:" ++ toString lp) s nr = Except.ok ())
    ∧ (∀ env2 : ForwardEnv ε,
        (∀ i, i < 3 → env2.seeds i = env.seeds i) →
        (∀ i, i < 3 → env2.forwardOutcome i = env.forwardOutcome i) →
        setup_forward env2 dp nr = setup_forward env dp nr)
    ∧ (∀ e0 e1 e2,
        setup_forward_attempt env dp nr 0 = Except.error e0 →
        setup_forward_attempt env dp nr 1 = Except.error e1 →
        setup_forward_attempt env dp nr 2 = Except.error e2 →
        setup_forward env dp nr = Except.error e2)
    ∧ (∀ r, setup_forward_attempt env dp nr 0 = Except.ok r →
        setup_forward env dp nr = Except.ok r)
    ∧ (∀ e0 r,
        setup_forward_attempt env dp nr 0 = Except.error e0 →
        setup_forward_attempt env dp nr 1 = Except.ok r →
        setup_forward env dp nr = Except.ok r)
    ∧ (∀ e0 e1 r,
        setup_forward_attempt env dp nr 0 = Except.error e0 →
        setup_forward_attempt env dp nr 1 = Except.error e1 →
        setup_forward_attempt env dp nr 2 = Except.ok r →
        setup_forward env dp nr = Except.ok r) := by
  have hunfold : setup_forward env dp nr =
      retriesFrom (setup_forward_attempt env dp nr) 0 2 := rfl
  refine ⟨fun i lp s h => setup_forward_attempt_ok env dp nr i lp s h, ?_, ?_, ?_, ?_, ?_⟩
  · intro env2 hs ho
    have ha : ∀ i, i < 3 →
        setup_forward_attempt env2 dp nr i = setup_forward_attempt env dp nr i := by
      intro i hi
      simp only [setup_forward_attempt, hs i hi, ho i hi]
    have e0 : setup_forward_attempt env2 dp nr 0 = setup_forward_attempt env dp nr 0 :=
      ha 0 (by norm_num)
    have e1 : setup_forward_attempt env2 dp nr 1 = setup_forward_attempt env dp nr 1 :=
      ha 1 (by norm_num)
    have e2 : setup_forward_attempt env2 dp nr 2 = setup_forward_attempt env dp nr 2 :=
      ha 2 (by norm_num)
    show retriesFrom (setup_forward_attempt env2 dp nr) 0 2 =
      retriesFrom (setup_forward_attempt env dp nr) 0 2
    cases c0 : setup_forward_attempt env dp nr 0 with
    | ok a => simp [retriesFrom_succ, e0, c0]
    | error ee0 =>
      cases c1 : setup_forward_attempt env dp nr 1 with
      | ok a => simp [retriesFrom_succ, e0, e1, c0, c1]
      | error ee1 =>
        cases c2 : setup_forward_attempt env dp nr 2 with
        | ok a => simp [retriesFrom_succ, retriesFrom_zero, e0, e1, e2, c0, c1, c2]
        | error ee2 =>
          simp [retriesFrom_succ, retriesFrom_zero, e0, e1, e2, c0, c1, c2]
  · intro e0 e1 e2 h0 h1 h2
    rw [hunfold, retriesFrom_succ, h0, retriesFrom_succ, h1, retriesFrom_zero, h2]
  · intro r h0
    rw [hunfold, retriesFrom_succ, h0]
  · intro e0 r h0 h1
    rw [hunfold, retriesFrom_succ, h0, retriesFrom_succ, h1]
  · intro e0 e1 r h0 h1 h2
    rw [hunfold, retriesFrom_succ, h0, retriesFrom_succ, h1, retriesFrom_zero, h2]

/-- C3 witness: with a first-attempt registration failure and a
second-attempt success, `setup_forward` returns the second attempt's
fresh port with the callable spec evaluated at it. -/
theorem C3_setup_forward_retry_witness :
    setup_forward
      (⟨fun i => i,
        fun i _ _ _ => if i = 0 then Except.error "collision" else Except.ok ()⟩ :
        ForwardEnv String)
      (PortSpec.fn (fun lp => "localabstract:" ++ toString lp)) true =
      Except.ok (11112, "localabstract:11112") :=
  (C3_setup_forward_retry
    (⟨fun i => i,
      fun i _ _ _ => if i = 0 then Except.error "collision" else Except.ok ()⟩ :
      ForwardEnv String)
    (PortSpec.fn (fun lp => "localabstract:" ++ toString lp))
    true).2.2.2.2.1 "collision" (11112, "localabstract:11112") rfl rfl

/-! ## C2 -/

/-- C2 is false as stated: the claim says no single extractor's exception
ever aborts the aggregate report, naming `sdkversion` among the covered
fields; but `self.sdk_version` is a property evaluated while building the
handler map, outside the loop's `try`/`except`, so its exception aborts
`get_device_info` entirely — here every other extractor succeeds, yet no
report is produced at all. -/
theorem C2_counterexample :
    get_device_info
      { serial := some "emulator-5554"
        memory := Except.ok "4G"
        storage := Except.ok "64G"
        display := Except.ok "1080x1920"
        cpuinfo := Except.ok "8xkirin"
        cpufreq := Except.ok "2.4GHz"
        cpuabi := Except.ok "arm64-v8a"
        gpu := Except.ok "Mali-G72"
        model := Except.ok "CLT-AL00"
        manufacturer := Except.ok "HUAWEI"
        sdkversion := Except.error () } = Except.error () := rfl

/-- C2 (amended): provided the eagerly evaluated `sdk_version` property
succeeds, `get_device_info` returns a report in which each of the nine
callable extractor fields (memory, storage, display, cpuinfo, cpufreq,
cpuabi, gpu, model, manufacturer) is `null` exactly when its own
extractor raised and carries its own extractor's value otherwise —
independent of every other field — while `platform`, `serialno` and
`sdkversion` are always populated.  If the `sdk_version` property
evaluation raises, the whole report aborts instead. -/
theorem C2_device_report_isolation (env : DevInfoEnv V) (sdk : Nat)
    (h : env.sdkversion = Except.ok sdk) :
    ∃ r : DeviceInfoReport V,
      get_device_info env = Except.ok r ∧
      r.platform = "Android" ∧ r.serialno = env.serial ∧ r.sdkversion = sdk ∧
      (env.memory = Except.error () → r.memory = none) ∧
      (∀ v, env.memory = Except.ok v → r.memory = some v) ∧
      (env.storage = Except.error () → r.storage = none) ∧
      (∀ v, env.storage = Except.ok v → r.storage = some v) ∧
      (env.display = Except.error () → r.display = none) ∧
      (∀ v, env.display = Except.ok v → r.display = some v) ∧
      (env.cpuinfo = Except.error () → r.cpuinfo = none) ∧
      (∀ v, env.cpuinfo = Except.ok v → r.cpuinfo = some v) ∧
      (env.cpufreq = Except.error () → r.cpufreq = none) ∧
      (∀ v, env.cpufreq = Except.ok v → r.cpufreq = some v) ∧
      (env.cpuabi = Except.error () → r.cpuabi = none) ∧
      (∀ v, env.cpuabi = Except.ok v → r.cpuabi = some v) ∧
      (env.gpu = Except.error () → r.gpu = none) ∧
      (∀ v, env.gpu = Except.ok v → r.gpu = some v) ∧
      (env.model = Except.error () → r.model = none) ∧
      (∀ v, env.model = Except.ok v → r.model = some v) ∧
      (env.manufacturer = Except.error () → r.manufacturer = none) ∧
      (∀ v, env.manufacturer = Except.ok v → r.manufacturer = some v) := by
  refine ⟨{ platform := "Android", serialno := env.serial,
            memory := tryField env.memory, storage := tryField env.storage,
            display := tryField env.display, cpuinfo := tryField env.cpuinfo,
            cpufreq := tryField env.cpufreq, cpuabi := tryField env.cpuabi,
            gpu := tryField env.gpu, model := tryField env.model,
            manufacturer := tryField env.manufacturer, sdkversion := sdk },
          by simp only [get_device_info, h], rfl, rfl, rfl, ?_⟩
  repeat' constructor
  all_goals
    first
    | (intro hx; simp [tryField, hx])
    | (intro v hx; simp [tryField, hx])

/-- C2 witness: with the CPU-info extractor raising and every other
extractor succeeding, the report has `cpuinfo = null` and all other
fields populated. -/
theorem C2_device_report_isolation_witness :
    Except.map
      (fun r : DeviceInfoReport String =>
        (r.cpuinfo, r.memory, r.storage, r.display, r.cpufreq, r.cpuabi,
         r.gpu, r.model, r.manufacturer, r.platform, r.serialno, r.sdkversion))
      (get_device_info
        { serial := some "emulator-5554"
          memory := Except.ok "4G"
          storage := Except.ok "64G"
          display := Except.ok "1080x1920"
          cpuinfo := Except.error ()
          cpufreq := Except.ok "2.4GHz"
          cpuabi := Except.ok "arm64-v8a"
          gpu := Except.ok "Mali-G72"
          model := Except.ok "CLT-AL00"
          manufacturer := Except.ok "HUAWEI"
          sdkversion := Except.ok 28 }) =
    Except.ok (none, some "4G", some "64G", some "1080x1920", some "2.4GHz",
      some "arm64-v8a", some "Mali-G72", some "CLT-AL00", some "HUAWEI",
      "Android", some "emulator-5554", 28) := by
  obtain ⟨r, hr, hp, hs, hv, hm1, hm2, hs1, hs2, hd1, hd2, hc1, hc2, hf1, hf2,
    ha1, ha2, hg1, hg2, hmo1, hmo2, hma1, hma2⟩ :=
    C2_device_report_isolation
      { serial := some "emulator-5554"
        memory := Except.ok "4G"
        storage := Except.ok "64G"
        display := Except.ok "1080x1920"
        cpuinfo := Except.error ()
        cpufreq := Except.ok "2.4GHz"
        cpuabi := Except.ok "arm64-v8a"
        gpu := Except.ok "Mali-G72"
        model := Except.ok "CLT-AL00"
        manufacturer := Except.ok "HUAWEI"
        sdkversion := Except.ok 28 } 28 rfl
  rw [hr]
  simp [Except.map, hp, hs, hv, hc1 rfl, hm2 _ rfl, hs2 _ rfl, hd2 _ rfl,
    hf2 _ rfl, ha2 _ rfl, hg2 _ rfl, hmo2 _ rfl, hma2 _ rfl]

/-! ## C4 -/

/-- C4: the claim says `raw_shell` with the decode-text flag true returns
the transport's bytes decoded as UTF-8 text.  The code instead invokes
`shell` with the constant `ensure_unicode=False` and returns its result
un-decoded, so with the flag true the caller receives the raw bytes
object — at transport output `b"abc"` the result is the bytes
`[97, 98, 99]` and not the text `"abc"`, although the non-raw `shell`
path with the same flag does produce the decoded text; with the flag
false, `str()` of the bytes is returned, as the claim says. -/
theorem C4_raw_shell_bug :
    raw_shell (fun _ => "abc") [97, 98, 99] true = ShellRS.bytes [97, 98, 99] ∧
    raw_shell (fun _ => "abc") [97, 98, 99] true ≠ ShellRS.text "abc" ∧
    shell_buffered (fun _ => "abc") [97, 98, 99] true = ShellRS.text "abc" ∧
    raw_shell (fun _ => "abc") [97, 98, 99] false =
      ShellRS.text ("b" ++ (Char.ofNat 39).toString ++ "abc"
        ++ (Char.ofNat 39).toString) := by
  refine ⟨rfl, by decide, rfl, by decide⟩

/-! ## C5 -/

/-- C5: when the explicit gateway property lookup yields no IP match but
the device's own IP is obtainable, `get_gateway_address` returns the
dotted-quad rendering of the masked network address plus one — which is
the network address with its low bit set, the two renderings coinciding
for every mask length up to 31 — and whenever the mask length cannot be
detected from the netcfg output (shell error or no pattern match) the
default length 17 is used and the console warning is emitted.  (The
`≤ 32` bound keeps the model inside the range where Python's shifts are
defined.) -/
theorem C5_gateway_fallback (oct : List Nat) (netcfgRes : Option String)
    (hml : (get_subnet_mask_len netcfgRes).fst ≤ 32) :
    (get_gateway_address none (some oct) netcfgRes).fst =
      some (int2ip ((ip2int oct &&&
        (((1 <<< (get_subnet_mask_len netcfgRes).fst) - 1)
          <<< (32 - (get_subnet_mask_len netcfgRes).fst))) + 1)) ∧
    ((get_subnet_mask_len netcfgRes).fst ≤ 31 →
      (ip2int oct &&& (((1 <<< (get_subnet_mask_len netcfgRes).fst) - 1)
          <<< (32 - (get_subnet_mask_len netcfgRes).fst))) ||| 1 =
      (ip2int oct &&& (((1 <<< (get_subnet_mask_len netcfgRes).fst) - 1)
          <<< (32 - (get_subnet_mask_len netcfgRes).fst))) + 1) ∧
    (get_gateway_address none (some oct) netcfgRes).snd =
      (get_subnet_mask_len netcfgRes).snd ∧
    (netcfgRes = none → get_subnet_mask_len netcfgRes = (17, true)) ∧
    (∀ s, netcfgRes = some s → findWlan0 s.toList = none →
      get_subnet_mask_len netcfgRes = (17, true)) := by
  refine ⟨rfl, ?_, rfl, ?_, ?_⟩
  · intro h31
    exact lor_one_of_even _
      (land_mod_two_eq_zero _ _ (mask_mod_two _ h31))
  · intro h; rw [h]; rfl
  · intro s hs hf
    have hf2 : findWlan0 s.data = none := hf
    rw [hs]
    simp [get_subnet_mask_len, hf2]

/-- C5 witness: with device IP 192.168.40.99 and a netcfg line carrying
`/19`, the gateway is 192.168.32.1, and the OR/plus-one renderings agree. -/
theorem C5_gateway_fallback_witness :
    (get_subnet_mask_len (some "wlan0 UP 192.168.40.99/19 0x1043")).fst ≤ 32 ∧
    (get_gateway_address none (some [192, 168, 40, 99])
      (some "wlan0 UP 192.168.40.99/19 0x1043")).fst = some "192.168.32.1" ∧
    (ip2int [192, 168, 40, 99] &&& (((1 <<< 19) - 1) <<< 13)) ||| 1 =
      (ip2int [192, 168, 40, 99] &&& (((1 <<< 19) - 1) <<< 13)) + 1 := by
  have h := C5_gateway_fallback [192, 168, 40, 99]
    (some "wlan0 UP 192.168.40.99/19 0x1043") (by decide)
  refine ⟨by decide, ?_, ?_⟩
  · rw [h.1]; decide
  · have hml : (get_subnet_mask_len
        (some "wlan0 UP 192.168.40.99/19 0x1043")).fst = 19 := by decide
    have h2 := h.2.1 (by decide)
    rw [hml] at h2
    exact h2

/-! ## C6 -/

/-- C6: whenever the `cur=WxH` marker is found in the window-manager
dump, `update_cur_display` assigns the smaller of the two detected
numbers to `width` and the larger to `height` (so width ≤ height holds
afterwards), preserving the prior values as
`physical_width`/`physical_height`; when the marker is absent the record
is returned unchanged. -/
theorem C6_update_cur_display (d : DisplayInfo) (dump : String) :
    (findCur dump.toList = none → update_cur_display d dump = d) ∧
    (∀ a b, findCur dump.toList = some (a, b) →
      update_cur_display d dump =
        { width := min a b, height := max a b,
          physical_width := some d.width, physical_height := some d.height } ∧
      (update_cur_display d dump).width ≤ (update_cur_display d dump).height) := by
  constructor
  · intro h
    have h2 : findCur dump.data = none := h
    simp [update_cur_display, h2]
  · intro a b h
    have h2 : findCur dump.data = some (a, b) := h
    constructor
    · simp [update_cur_display, h2]
    · simp [update_cur_display, h2]

/-- C6 witness: a dump with `cur=1184x720` and an existing record
`{width:720, height:1184}` produce
`{width:720, height:1184, physical_width:720, physical_height:1184}`. -/
theorem C6_update_cur_display_witness :
    update_cur_display ⟨720, 1184, none, none⟩
      "Display: init=720x1184 320dpi cur=1184x720 app=1184x720" =
      ⟨720, 1184, some 720, some 1184⟩ := by
  have h := ((C6_update_cur_display ⟨720, 1184, none, none⟩
    "Display: init=720x1184 320dpi cur=1184x720 app=1184x720").2
    1184 720 (by decide)).1
  rw [h]
  decide

/-! ## C7 -/

/-- C7 is false as stated: when the transport client resolves no device
for the serial, `connect` raises Python's generic `RuntimeError`, not an
error of the ConnectivityError category (`DeviceConnectionError`, the
class `wait_for_device` raises for its timeout). -/
theorem C7_counterexample :
    connect none (none : Option Unit) (fun _ => none) (some "XYZ") =
      Except.error (PyErr.runtimeError "No device found for [XYZ]") ∧
    isConnectivityError (PyErr.runtimeError "No device found for [XYZ]") = false ∧
    wait_for_device (fun _ => []) 5 =
      Except.error (PyErr.deviceConnectionError "device not ready") := by
  refine ⟨rfl, rfl, rfl⟩

/-- C7 (amended): for every call of `connect(serial)` for which the
transport client resolves no device handle matching the serial, the call
fails with the generic `RuntimeError` carrying the message
`No device found for [serial]` — an error outside the ConnectivityError
category of the error taxonomy. -/
theorem C7_connect_generic_error (selfSerial : Option String) (selfDev : Option δ)
    (lookup : String → Option δ) (sv : String) (h : lookup sv = none) :
    connect selfSerial selfDev lookup (some sv) =
      Except.error (PyErr.runtimeError ("No device found for [" ++ sv ++ "]")) ∧
    ∀ e, connect selfSerial selfDev lookup (some sv) = Except.error e →
      isConnectivityError e = false := by
  have hc : connect selfSerial selfDev lookup (some sv) =
      Except.error (PyErr.runtimeError ("No device found for [" ++ sv ++ "]")) := by
    simp [connect, h, fstrOpt]
  refine ⟨hc, ?_⟩
  intro e he
  rw [hc] at he
  injection he with he2
  rw [← he2]
  rfl

/-- C7 witness: the amended behavior at a concrete serial with an empty
transport device table. -/
theorem C7_connect_generic_error_witness :
    connect (some "A") (none : Option Nat) (fun _ => none) (some "B") =
      Except.error (PyErr.runtimeError ("No device found for [" ++ "B" ++ "]")) ∧
    isConnectivityError
      (PyErr.runtimeError ("No device found for [" ++ "B" ++ "]")) = false :=
  ⟨(C7_connect_generic_error (some "A") (none : Option Nat) (fun _ => none) "B" rfl).1,
   (C7_connect_generic_error (some "A") (none : Option Nat) (fun _ => none) "B" rfl).2
     (PyErr.runtimeError ("No device found for [" ++ "B" ++ "]"))
     (C7_connect_generic_error (some "A") (none : Option Nat) (fun _ => none) "B" rfl).1⟩

/-! ## C8 -/

/-- C8 is false as stated: the cleanup pass only catches `RuntimeError`.
Here the first session's removal raises an exception of another class
and the pass aborts immediately: `removeForward` is never invoked on the
second registered session. -/
theorem C8_counterexample :
    cleanup_adb_forward
        (fun n => if n = 0 then Except.error RemoveExc.otherExc else Except.ok ())
        (registerAll [0, 1]) = ([0], some RemoveExc.otherExc) ∧
    ([0] : List Nat) ≠ registerAll [0, 1] := by decide

/-- C8 (amended): the process-exit cleanup pass invokes `removeForward`
exactly once on every registered session, in registration order, and a
`RuntimeError` raised during one session's removal does not abort the
pass; but an exception of any other class does — only `RuntimeError`
is caught. -/
theorem C8_cleanup_pass (remove : σ → Except RemoveExc Unit) (ss : List σ)
    (h : ∀ s ∈ ss, remove s ≠ Except.error RemoveExc.otherExc) :
    registerAll ss = ss ∧
    cleanup_adb_forward remove (registerAll ss) = (ss, none) := by
  refine ⟨registerAll_eq ss, ?_⟩
  rw [registerAll_eq]
  exact cleanup_all_invoked remove ss h

/-- C8 witness: three registered sessions, the middle removal raising
`RuntimeError`; all three are reached and the pass completes. -/
theorem C8_cleanup_pass_witness :
    registerAll [0, 1, 2] = [0, 1, 2] ∧
    cleanup_adb_forward
      (fun n => if n = 1 then Except.error RemoveExc.runtimeError else Except.ok ())
      (registerAll [0, 1, 2]) = ([0, 1, 2], none) :=
  C8_cleanup_pass
    (fun n => if n = 1 then Except.error RemoveExc.runtimeError else Except.ok ())
    [0, 1, 2] (by intro s hs; fin_cases hs <;> simp)

/-! ## C9 -/

/-- C9: a purely alphabetic input string is sent as exactly one
text-input shell command carrying the whole string; any other string is
sent as one keyevent shell command per character, each named `KEYCODE_`
followed by the upper-cased character. -/
theorem C9_text_entry (s : String) :
    (str_isalpha s = true → text s = [["input", "text", s]]) ∧
    (str_isalpha s = false →
      text s = s.toList.map
        (fun i => ["input", "keyevent", "KEYCODE_" ++ (Char.toUpper i).toString]) ∧
      (text s).length = s.length) := by
  constructor
  · intro h; simp [text, h]
  · intro h
    have hm : text s = s.toList.map
        (fun i => ["input", "keyevent", "KEYCODE_" ++ (Char.toUpper i).toString]) := by
      simp [text, h]
    refine ⟨hm, ?_⟩
    rw [hm, List.length_map]
    rfl

/-- C9 witness: `"abc"` yields one text-input command and `"a1"` yields
exactly two keyevent commands. -/
theorem C9_text_entry_witness :
    text "abc" = [["input", "text", "abc"]] ∧
    text "a1" = [["input", "keyevent", "KEYCODE_A"],
                 ["input", "keyevent", "KEYCODE_1"]] ∧
    (text "a1").length = 2 := by
  refine ⟨(C9_text_entry "abc").1 (by decide), ?_, ?_⟩
  · rw [((C9_text_entry "a1").2 (by decide)).1]
    decide
  · rw [((C9_text_entry "a1").2 (by decide)).2]
    decide

/-! ## C10 -/

/-- C10: when the display-info computation raises while the property
holds the lock, the exception propagates with the lock left held and the
cache still empty (there is no try/finally around the
check-compute-store sequence), and every subsequent `display_info`
access on that session blocks and leaves the state unchanged — hence
blocks forever. -/
theorem C10_display_info_lock (compute : Except ε ρ) (e : ε)
    (h : compute = Except.error e) :
    display_info_access compute ⟨false, none⟩ =
      (DIOutcome.raised e, ⟨true, none⟩) ∧
    ∀ compute2 : Except ε ρ,
      display_info_access compute2 ⟨true, none⟩ =
        (DIOutcome.blocked, ⟨true, none⟩) := by
  constructor
  · simp [display_info_access, h]
  · intro c2
    simp [display_info_access]

/-- C10 witness: a failed computation leaves the lock held and the cache
empty, and a later access (even one that would succeed) blocks. -/
theorem C10_display_info_lock_witness :
    display_info_access (Except.error 7 : Except Nat Nat) ⟨false, none⟩ =
      (DIOutcome.raised 7, ⟨true, none⟩) ∧
    display_info_access (Except.ok 5 : Except Nat Nat) ⟨true, none⟩ =
      (DIOutcome.blocked, ⟨true, none⟩) :=
  ⟨(C10_display_info_lock (Except.error 7) 7 rfl).1,
   (C10_display_info_lock (Except.error 7) 7 rfl).2 (Except.ok 5)⟩

end PyAdb
